import Mathlib

/-!
Shallow embedding of `lindera-server` (`src/main.rs`) in Lean 4.

The program is a small HTTP service around the external `lindera`
tokenization engine.  Its own logic is:

* command-line argument parsing with clap defaults (`Args`, lines 26-76);
* configuration resolution: three `match` blocks mapping the raw string
  arguments onto a `TokenizerConfig` (lines 90-151), each invalid value
  returning a `LinderaErrorKind::Args` error from `main`;
* startup sequencing: build tokenizer, parse the host IP with `unwrap`,
  bind the socket and serve (lines 154-170);
* the per-request handler `tokenize` (lines 176-213): a body-size gate
  (`ContentLengthLimit<Bytes, {1024 * 5000}>`), UTF-8 decoding
  (`String::from_utf8`), the engine call, the engine's JSON formatter,
  and a final `serde_json::from_str(..).unwrap()`.

External collaborators (the lindera engine, its formatter, `serde_json`
parsing, the IP-address parser) are parameters of the model; everything
the repository itself does is translated directly.  Rust `String` values
are represented by their UTF-8 byte lists (`List Nat`), which is exactly
Rust's representation of `String`.
-/

/-- Dictionary kinds, from lindera's `DictionaryType` as matched by
`main.rs` lines 93-120. -/
inductive DictionaryType where
  | ipadic
  | unidic
  | kodic
  | cedict
  | localDictionary
deriving DecidableEq, Repr

/-- User dictionary kinds, from lindera's `UserDictionaryType`. -/
inductive UserDictionaryType where
  | csv
  | binary
deriving DecidableEq, Repr

/-- Lindera's `Penalty` configuration record. -/
structure Penalty where
  kanji_penalty_length_threshold : Nat
  kanji_penalty_length_penalty : Int
  other_penalty_length_threshold : Nat
  other_penalty_length_penalty : Int
deriving DecidableEq, Repr

/-- `Penalty::default()` as used by `main.rs` lines 145-146. -/
def Penalty.defaultVal : Penalty :=
  { kanji_penalty_length_threshold := 2
    kanji_penalty_length_penalty := 3000
    other_penalty_length_threshold := 7
    other_penalty_length_penalty := 1700 }

/-- Lindera's tokenization `Mode`. -/
inductive Mode where
  | normal
  | decompose (p : Penalty)
deriving DecidableEq, Repr

/-- Startup error, from `LinderaErrorKind::Args.with_error(..)` used in
`main.rs`; `other` stands for errors produced by the external engine. -/
inductive LinderaError where
  | args (msg : String)
  | other (msg : String)
deriving DecidableEq, Repr

/-- Lindera's `TokenizerConfig`, the record filled in by `main.rs`
lines 90-151. -/
structure TokenizerConfig where
  dict_type : DictionaryType
  dict_path : Option String
  user_dict_path : Option String
  user_dict_type : UserDictionaryType
  mode : Mode
deriving DecidableEq, Repr

/-- `TokenizerConfig::default()` (lindera): ipadic dictionary, no paths,
csv user dictionary, normal mode. -/
def defaultTokenizerConfig : TokenizerConfig :=
  { dict_type := .ipadic
    dict_path := none
    user_dict_path := none
    user_dict_type := .csv
    mode := .normal }

/-- The dictionary-kind names that have a compiled-in `#[cfg(feature)]`
match arm in `main.rs` lines 93-109. -/
def knownDictKinds : List String := ["ipadic", "unidic", "ko-dic", "cc-cedict"]

/-- The compiled-in supported set: the known kinds whose cargo feature is
enabled in this build. -/
def supportedSet (features : List String) : List String :=
  knownDictKinds.filter (fun k => features.contains k)

/-- The error message of `main.rs` lines 115-118
(`"{:?} are available for --dict-type"`). -/
def supportedDictMsg (features : List String) : String :=
  toString (supportedSet features) ++ " are available for --dict-type"

/-- The dictionary-type `match` of `main.rs` lines 93-120, parameterized
by the cargo features enabled at build time (each `#[cfg(feature = ..)]`
arm exists only when its feature is on).  The `"local"` arm stores
`args.dict` as-is, absent or not. -/
def dictTypeStep (features : List String) (dictType : String)
    (dict : Option String) (cfg : TokenizerConfig) :
    Except LinderaError TokenizerConfig :=
  if dictType == "ipadic" && features.contains "ipadic" then
    .ok { cfg with dict_type := .ipadic }
  else if dictType == "unidic" && features.contains "unidic" then
    .ok { cfg with dict_type := .unidic }
  else if dictType == "ko-dic" && features.contains "ko-dic" then
    .ok { cfg with dict_type := .kodic }
  else if dictType == "cc-cedict" && features.contains "cc-cedict" then
    .ok { cfg with dict_type := .cedict }
  else if dictType == "local" then
    .ok { cfg with dict_type := .localDictionary, dict_path := dict }
  else
    .error (.args (supportedDictMsg features))

/-- The user-dictionary-type `match` of `main.rs` lines 126-140. -/
def userDictTypeStep (userDictType : Option String) (cfg : TokenizerConfig) :
    Except LinderaError TokenizerConfig :=
  match userDictType with
  | some t =>
      if t == "csv" then .ok { cfg with user_dict_type := .csv }
      else if t == "bin" then .ok { cfg with user_dict_type := .binary }
      else .error (.args ("invalid user dictionary type: " ++ t))
  | none => .ok { cfg with user_dict_type := .csv }

/-- The mode `match` of `main.rs` lines 143-151; both `"search"` and
`"decompose"` map to `Mode::Decompose(Penalty::default())`. -/
def modeStep (m : String) (cfg : TokenizerConfig) :
    Except LinderaError TokenizerConfig :=
  if m == "normal" then .ok { cfg with mode := .normal }
  else if m == "search" then .ok { cfg with mode := .decompose Penalty.defaultVal }
  else if m == "decompose" then .ok { cfg with mode := .decompose Penalty.defaultVal }
  else .error (.args ("unsupported mode: " ++ m))

/-- Configuration resolution: `main.rs` lines 90-151 in sequence, starting
from `TokenizerConfig::default()`; line 123 stores the user-dictionary
path unconditionally. -/
def resolveConfig (features : List String) (dictType : String)
    (dict : Option String) (userDict : Option String)
    (userDictType : Option String) (modeArg : String) :
    Except LinderaError TokenizerConfig := do
  let c1 ← dictTypeStep features dictType dict defaultTokenizerConfig
  let c2 := { c1 with user_dict_path := userDict }
  let c3 ← userDictTypeStep userDictType c2
  modeStep modeArg c3

/-- The parsed command-line arguments (`Args`, `main.rs` lines 26-76),
after clap has applied defaults. -/
structure Args where
  host : String
  port : Nat
  dict_type : String
  dict : Option String
  user_dict : Option String
  user_dict_type : Option String
  mode : String
deriving DecidableEq, Repr

/-- Raw command line: which options were supplied at all. -/
structure RawArgs where
  host : Option String
  port : Option Nat
  dict_type : Option String
  dict : Option String
  user_dict : Option String
  user_dict_type : Option String
  mode : Option String
deriving DecidableEq, Repr

/-- Clap's defaulting, from the `#[clap(default_value = ..)]` attributes of
`main.rs` lines 26-76: host `0.0.0.0`, port `8080`, dict type
`DEFAULT_DICTIONARY_TYPE` (`"ipadic"`), mode `"normal"`; the user
dictionary options have no default and stay `Option`. -/
def parseArgs (r : RawArgs) : Args :=
  { host := r.host.getD "0.0.0.0"
    port := r.port.getD 8080
    dict_type := r.dict_type.getD "ipadic"
    dict := r.dict
    user_dict := r.user_dict
    user_dict_type := r.user_dict_type
    mode := r.mode.getD "normal" }

example : resolveConfig ["ipadic"] "local" none none none "normal" =
    .ok { defaultTokenizerConfig with
            dict_type := .localDictionary, dict_path := none } := rfl

example : resolveConfig ["ipadic"] "foo" none none none "normal" =
    .error (.args (supportedDictMsg ["ipadic"])) := rfl

/-- Structured UTF-8 decode error, mirroring Rust's `std::str::Utf8Error`
(`valid_up_to` and `error_len`), which `String::from_utf8`'s error wraps. -/
structure Utf8Error where
  valid_up_to : Nat
  error_len : Option Nat
deriving DecidableEq, Repr

/-- The `Display` text of Rust's `Utf8Error`, which is what `main.rs`
line 184 puts into the error payload via `format!("{}", err)`. -/
def utf8ErrorDesc (e : Utf8Error) : String :=
  match e.error_len with
  | some n =>
      "invalid utf-8 sequence of " ++ toString n ++ " bytes from index " ++
        toString e.valid_up_to
  | none => "incomplete utf-8 byte sequence from index " ++ toString e.valid_up_to

/-- UTF-8 continuation byte: `0x80..=0xBF`. -/
def isCont (b : Nat) : Bool := 0x80 ≤ b && b ≤ 0xBF

/-- Legal second bytes of a three-byte sequence, per the UTF-8 table used
by Rust's validator (excludes overlong forms and surrogates). -/
def valid3Second (b c : Nat) : Bool :=
  (b == 0xE0 && 0xA0 ≤ c && c ≤ 0xBF) ||
  (0xE1 ≤ b && b ≤ 0xEC && isCont c) ||
  (b == 0xED && 0x80 ≤ c && c ≤ 0x9F) ||
  (0xEE ≤ b && b ≤ 0xEF && isCont c)

/-- Legal second bytes of a four-byte sequence (excludes overlong forms
and code points above `0x10FFFF`). -/
def valid4Second (b c : Nat) : Bool :=
  (b == 0xF0 && 0x90 ≤ c && c ≤ 0xBF) ||
  (0xF1 ≤ b && b ≤ 0xF3 && isCont c) ||
  (b == 0xF4 && 0x80 ≤ c && c ≤ 0x8F)

/-- The UTF-8 validation loop of Rust's `run_utf8_validation` (which
`String::from_utf8` runs): `none` means the bytes are valid UTF-8.  The
fuel argument only bounds recursion; every step consumes at least one
byte, so `fuel = length` never runs out. -/
def utf8Loop : Nat → Nat → List Nat → Option Utf8Error
  | _, _, [] => none
  | 0, _, _ => none
  | fuel + 1, i, b :: rest =>
    if b < 0x80 then utf8Loop fuel (i + 1) rest
    else if 0xC2 ≤ b && b ≤ 0xDF then
      match rest with
      | [] => some ⟨i, none⟩
      | c :: rest2 =>
        if isCont c then utf8Loop fuel (i + 2) rest2 else some ⟨i, some 1⟩
    else if 0xE0 ≤ b && b ≤ 0xEF then
      match rest with
      | [] => some ⟨i, none⟩
      | c :: rest2 =>
        if valid3Second b c then
          match rest2 with
          | [] => some ⟨i, none⟩
          | d :: rest3 =>
            if isCont d then utf8Loop fuel (i + 3) rest3 else some ⟨i, some 2⟩
        else some ⟨i, some 1⟩
    else if 0xF0 ≤ b && b ≤ 0xF4 then
      match rest with
      | [] => some ⟨i, none⟩
      | c :: rest2 =>
        if valid4Second b c then
          match rest2 with
          | [] => some ⟨i, none⟩
          | d :: rest3 =>
            if isCont d then
              match rest3 with
              | [] => some ⟨i, none⟩
              | e :: rest4 =>
                if isCont e then utf8Loop fuel (i + 4) rest4 else some ⟨i, some 3⟩
            else some ⟨i, some 2⟩
        else some ⟨i, some 1⟩
    else some ⟨i, some 1⟩

/-- `String::from_utf8` validation on a byte list (`main.rs` line 180):
`none` = valid (the decoded `String` is the same bytes), `some e` = the
decode error. -/
def utf8Validate (l : List Nat) : Option Utf8Error := utf8Loop l.length 0 l

example : utf8Validate [0x73, 0x75, 0x6D, 0x6F] = none := by decide

example : utf8Validate [0xE3, 0x81, 0x99] = none := by decide

example : utf8Validate [0xFF] = some ⟨0, some 1⟩ := by decide

example : utf8Validate [0x61, 0xE3, 0x81] = some ⟨1, none⟩ := by decide

example : utf8Validate [0x61, 0xE3, 0x28, 0x28] = some ⟨1, some 1⟩ := by decide

/-- JSON values, the shape of the handler's `Json<Value>` response. -/
inductive Json where
  | null
  | bool (b : Bool)
  | num (n : Int)
  | str (s : String)
  | arr (items : List Json)
  | obj (fields : List (String × Json))

/-- The error payload built at `main.rs` lines 184, 195 and 205:
`serde_json::json!({"error": format!("{}", err)})`. -/
def errorJson (msg : String) : Json := .obj [("error", .str msg)]

/-- Whether a JSON value is an object with an `error` field. -/
def jsonHasErrorField : Json → Bool
  | .obj fields => fields.any (fun kv => kv.fst == "error")
  | _ => false

/-- A token produced by the engine (surface text and dictionary word id). -/
structure Token where
  text : String
  word_id : Nat
deriving DecidableEq, Repr

/-- The external collaborators the handler calls, as black-box functions:
lindera's `Tokenizer::tokenize` (on the decoded text, kept as its UTF-8
bytes), lindera's `format(_, Format::Json)` producing a string, and
`serde_json::from_str` (`none` = parse failure). -/
structure Pipeline where
  tokenizeFn : List Nat → Except String (List Token)
  formatFn : List Token → Except String String
  parseFn : String → Option Json

/-- The formatting tail of the `tokenize` handler, `main.rs` lines
200-212: a formatter error degrades to the error payload; on success the
output string goes through `serde_json::from_str(&output_json).unwrap()`
at line 210, whose parse failure is a panic, modelled as `none`. -/
def handlerAfterTokenize (p : Pipeline) (tokens : List Token) : Option Json :=
  match p.formatFn tokens with
  | .error msg => some (errorJson msg)
  | .ok out =>
    match p.parseFn out with
    | some v => some v
    | none => none

/-- The engine-call stage of the handler, `main.rs` lines 191-198: a
tokenize error degrades to the error payload. -/
def handlerAfterDecode (p : Pipeline) (bytes : List Nat) : Option Json :=
  match p.tokenizeFn bytes with
  | .error msg => some (errorJson msg)
  | .ok tokens => handlerAfterTokenize p tokens

/-- The body of the `tokenize` handler, `main.rs` lines 180-212, starting
with the UTF-8 decode of lines 180-187 whose error degrades to the error
payload.  A `some` result is served by axum as HTTP 200 with that JSON
body; `none` is the line-210 panic. -/
def handlerCore (p : Pipeline) (bytes : List Nat) : Option Json :=
  match utf8Validate bytes with
  | some e => some (errorJson (utf8ErrorDesc e))
  | none => handlerAfterDecode p bytes

/-- The `ContentLengthLimit` bound of `main.rs` line 177: `1024 * 5_000`. -/
def BODY_LIMIT : Nat := 1024 * 5000

/-- The `/tokenize` route as axum runs it: the `ContentLengthLimit<Bytes,
{1024 * 5000}>` extractor rejects a request whose length exceeds the
limit before the handler body runs (`none` = rejected, handler never
invoked); otherwise the handler body executes. -/
def tokenizeRoute (p : Pipeline) (bytes : List Nat) : Option (Option Json) :=
  if bytes.length > BODY_LIMIT then none
  else some (handlerCore p bytes)

/-- Outcome of `main` (`main.rs` lines 84-173): returning `Err` from
`main` prints the error as a diagnostic and exits with a non-zero
status; `panicked` is the `unwrap` on `IpAddr::from_str` at line 158;
`serving` means the socket was bound and the server runs.  Binding
(line 167) happens only after configuration resolution, tokenizer
construction and IP parsing all succeeded. -/
inductive MainOutcome where
  | exitErr (e : LinderaError)
  | panicked
  | serving
deriving DecidableEq, Repr

/-- Whether an outcome ever bound the listening socket. -/
def socketBound : MainOutcome → Bool
  | .serving => true
  | _ => false

/-- The startup sequence of `main.rs` lines 90-170, with the external
steps as parameters: `construct` is `Tokenizer::with_config` and
`parseIp` is `IpAddr::from_str` (`none` = parse error, which line 158
unwraps into a panic). -/
def mainModel {Engine Ip : Type} (features : List String)
    (construct : TokenizerConfig → Except LinderaError Engine)
    (parseIp : String → Option Ip) (a : Args) : MainOutcome :=
  match resolveConfig features a.dict_type a.dict a.user_dict a.user_dict_type a.mode with
  | .error e => .exitErr e
  | .ok cfg =>
    match construct cfg with
    | .error e => .exitErr e
    | .ok _ =>
      match parseIp a.host with
      | none => .panicked
      | some _ => .serving

/-- One request served against the shared tokenizer: the handler receives
the `Arc<Tokenizer>` by shared reference (`main.rs` lines 164, 178), so
the engine state after the request is the state before it. -/
def serveStep (p : Pipeline) (bytes : List Nat) : Option Json × Pipeline :=
  (handlerCore p bytes, p)

/-- Membership of a dictionary-kind name in the compiled-in supported set:
one of the four feature-gated match arms of `main.rs` lines 93-109 with
its cargo feature enabled. -/
def isSupported (features : List String) (d : String) : Bool :=
  (d == "ipadic" && features.contains "ipadic") ||
  (d == "unidic" && features.contains "unidic") ||
  (d == "ko-dic" && features.contains "ko-dic") ||
  (d == "cc-cedict" && features.contains "cc-cedict")

/-- A concrete stand-in for the external collaborators, used to evaluate
the handler on concrete requests: an engine returning no tokens and a
formatter printing the empty token array. -/
def pipelineStub : Pipeline :=
  { tokenizeFn := fun _ => .ok []
    formatFn := fun _ => .ok "[]"
    parseFn := fun s => if s == "[]" then some (.arr []) else none }

theorem userDictTypeStep_ok_fields {udt : Option String} {c c' : TokenizerConfig}
    (h : userDictTypeStep udt c = Except.ok c') :
    c'.dict_type = c.dict_type ∧ c'.dict_path = c.dict_path := by
  unfold userDictTypeStep at h
  split at h
  · split at h
    · injection h with h2
      subst h2
      exact ⟨rfl, rfl⟩
    · split at h
      · injection h with h2
        subst h2
        exact ⟨rfl, rfl⟩
      · exact absurd h (by simp)
  · injection h with h2
    subst h2
    exact ⟨rfl, rfl⟩

theorem modeStep_ok_fields {m : String} {c c' : TokenizerConfig}
    (h : modeStep m c = Except.ok c') :
    c'.dict_type = c.dict_type ∧ c'.dict_path = c.dict_path := by
  unfold modeStep at h
  split at h
  · injection h with h2
    subst h2
    exact ⟨rfl, rfl⟩
  · split at h
    · injection h with h2
      subst h2
      exact ⟨rfl, rfl⟩
    · split at h
      · injection h with h2
        subst h2
        exact ⟨rfl, rfl⟩
      · exact absurd h (by simp)

theorem dictTypeStep_unsupported (features : List String) (d : String)
    (dict : Option String) (cfg : TokenizerConfig)
    (h1 : isSupported features d = false) (h2 : d ≠ "local") :
    dictTypeStep features d dict cfg =
      Except.error (.args (supportedDictMsg features)) := by
  unfold isSupported at h1
  simp only [Bool.or_eq_false_iff] at h1
  obtain ⟨⟨⟨ha, hb⟩, hc⟩, hd⟩ := h1
  have hl : (d == "local") = false := by simp [h2]
  unfold dictTypeStep
  rw [ha, hb, hc, hd, hl]
  rfl

/-- Claim C2 counterexample: with dictionary kind `local` and no
dictionary path, configuration resolution does NOT fail — it succeeds
with `dict_path = None` — and that `Config` does reach engine
construction (a probe `Tokenizer::with_config` is invoked on it). -/
theorem c2_counterexample :
    resolveConfig ["ipadic"] "local" none none none "normal" =
      Except.ok { defaultTokenizerConfig with
                    dict_type := .localDictionary, dict_path := none }
  ∧ @mainModel Unit Unit ["ipadic"]
      (fun _ => Except.error (.other "construction invoked"))
      (fun _ => some ())
      { host := "0.0.0.0", port := 8080, dict_type := "local", dict := none,
        user_dict := none, user_dict_type := none, mode := "normal" } =
      .exitErr (.other "construction invoked") :=
  ⟨rfl, rfl⟩

/-- Claim C2 (amended): when the dictionary kind is `local` and no path is
supplied, resolution succeeds; any `Config` it produces has
`dict_type = LocalDictionary` with `dict_path` absent, and that config is
handed on to engine construction (only lindera's construction can then
reject the missing path). -/
theorem c2_local_no_path_resolves :
    (∀ (features : List String) (ud udt : Option String) (m : String)
        (cfg : TokenizerConfig),
        resolveConfig features "local" none ud udt m = Except.ok cfg →
          cfg.dict_type = DictionaryType.localDictionary ∧ cfg.dict_path = none)
  ∧ ∀ (features : List String),
      resolveConfig features "local" none none none "normal" =
        Except.ok { defaultTokenizerConfig with
                      dict_type := .localDictionary, dict_path := none } := by
  constructor
  · intro features ud udt m cfg h
    have h' : (userDictTypeStep udt
        { dict_type := .localDictionary, dict_path := none,
          user_dict_path := ud, user_dict_type := .csv, mode := .normal } >>=
        modeStep m) = Except.ok cfg := h
    cases hu : userDictTypeStep udt
        { dict_type := .localDictionary, dict_path := none,
          user_dict_path := ud, user_dict_type := .csv, mode := .normal } with
    | error e =>
      rw [hu] at h'
      exact absurd h' (by simp [Bind.bind, Except.bind])
    | ok c3 =>
      rw [hu] at h'
      have h'' : modeStep m c3 = Except.ok cfg := h'
      obtain ⟨hu1, hu2⟩ := userDictTypeStep_ok_fields hu
      obtain ⟨hm1, hm2⟩ := modeStep_ok_fields h''
      exact ⟨hm1.trans hu1, hm2.trans hu2⟩
  · intro features
    rfl

/-- Claim C2 amended-theorem witness at a concrete input. -/
theorem c2_local_no_path_resolves_witness :
    resolveConfig ["ipadic"] "local" none none (some "csv") "search" =
      Except.ok { dict_type := .localDictionary, dict_path := none,
                  user_dict_path := none, user_dict_type := .csv,
                  mode := .decompose Penalty.defaultVal }
  ∧ ({ dict_type := .localDictionary, dict_path := none,
       user_dict_path := none, user_dict_type := .csv,
       mode := .decompose Penalty.defaultVal : TokenizerConfig }).dict_type =
        DictionaryType.localDictionary
  ∧ ({ dict_type := .localDictionary, dict_path := none,
       user_dict_path := none, user_dict_type := .csv,
       mode := .decompose Penalty.defaultVal : TokenizerConfig }).dict_path = none :=
  ⟨rfl,
    (c2_local_no_path_resolves.1 ["ipadic"] none (some "csv") "search" _ rfl).1,
    (c2_local_no_path_resolves.1 ["ipadic"] none (some "csv") "search" _ rfl).2⟩

/-- Claim C3 counterexample: a request body of exactly 5,120,000 bytes is
NOT rejected — `ContentLengthLimit<Bytes, {1024 * 5000}>` admits it and
the handler body runs on it — contradicting "at or over 5,120,000 bytes
is rejected before any pipeline processing". -/
theorem c3_counterexample :
    tokenizeRoute pipelineStub (List.replicate (1024 * 5000) 97) =
      some (handlerCore pipelineStub (List.replicate (1024 * 5000) 97)) := by
  unfold tokenizeRoute
  rw [List.length_replicate]
  rfl

/-- Claim C3 (amended): the `/tokenize` route rejects a request before the
handler body runs exactly when its body is strictly over 5,120,000
bytes; bodies at or under that size are admitted and reach the handler. -/
theorem c3_size_gate (p : Pipeline) (bytes : List Nat) :
    (tokenizeRoute p bytes = none ↔ BODY_LIMIT < bytes.length)
  ∧ (tokenizeRoute p bytes ≠ none ↔ bytes.length ≤ BODY_LIMIT) := by
  by_cases h : BODY_LIMIT < bytes.length
  · constructor
    · simp [tokenizeRoute, h]
    · simp [tokenizeRoute, h]
      try omega
  · constructor
    · simp [tokenizeRoute, h]
    · simp [tokenizeRoute, h]
      try omega

/-- Claim C4: resolving mode `search` and mode `decompose` produce the
same configuration outcome for every other argument combination (both
map to `Mode::Decompose(Penalty::default())` at `main.rs` lines
145-146), hence any tokenization function of the constructed
configuration gives identical output for the two modes. -/
theorem c4_search_decompose_identical (features : List String) (d : String)
    (dict ud udt : Option String) :
    resolveConfig features d dict ud udt "search" =
      resolveConfig features d dict ud udt "decompose"
  ∧ ∀ (tokenizeWith : TokenizerConfig → List Nat → Except String (List Token))
      (text : List Nat),
      (resolveConfig features d dict ud udt "search").map
          (fun cfg => tokenizeWith cfg text) =
        (resolveConfig features d dict ud udt "decompose").map
          (fun cfg => tokenizeWith cfg text) := by
  have key : resolveConfig features d dict ud udt "search" =
      resolveConfig features d dict ud udt "decompose" := by
    unfold resolveConfig
    cases dictTypeStep features d dict defaultTokenizerConfig with
    | error e => rfl
    | ok c1 =>
      cases hu : userDictTypeStep udt { c1 with user_dict_path := ud } with
      | error e =>
        show (userDictTypeStep udt { c1 with user_dict_path := ud } >>=
            modeStep "search") =
          (userDictTypeStep udt { c1 with user_dict_path := ud } >>=
            modeStep "decompose")
        rw [hu]
        rfl
      | ok c3 =>
        show (userDictTypeStep udt { c1 with user_dict_path := ud } >>=
            modeStep "search") =
          (userDictTypeStep udt { c1 with user_dict_path := ud } >>=
            modeStep "decompose")
        rw [hu]
        rfl
  exact ⟨key, fun tokenizeWith text => by rw [key]⟩

/-- Claim C9: tokenization is deterministic across requests — the handler
holds the tokenizer behind a shared reference and never mutates it, so
serving the same body again immediately afterwards yields the identical
response. -/
theorem c9_tokenize_deterministic (p : Pipeline) (bytes : List Nat) :
    (serveStep p bytes).fst =
      (serveStep (serveStep p bytes).snd bytes).fst := rfl

/-- Claim C5: a request body that is not valid UTF-8 gets a JSON object
response whose `error` field carries the decode error description, served
(as every handler return is) with HTTP 200; the result is the same for
every engine, i.e. no engine call is made, and the handler returns rather
than crashing or hanging. -/
theorem c5_invalid_utf8_error_response (p : Pipeline) (bytes : List Nat)
    (e : Utf8Error) (h : utf8Validate bytes = some e) :
    handlerCore p bytes = some (errorJson (utf8ErrorDesc e))
  ∧ jsonHasErrorField (errorJson (utf8ErrorDesc e)) = true
  ∧ ∀ q : Pipeline, handlerCore q bytes = handlerCore p bytes := by
  refine ⟨?_, rfl, ?_⟩
  · unfold handlerCore
    rw [h]
  · intro q
    unfold handlerCore
    rw [h]

/-- Claim C5 witness: the single byte `0xFF` is invalid UTF-8 and gets the
error payload response. -/
theorem c5_invalid_utf8_error_response_witness :
    utf8Validate [0xFF] = some ⟨0, some 1⟩
  ∧ handlerCore pipelineStub [0xFF] =
      some (errorJson (utf8ErrorDesc ⟨0, some 1⟩)) :=
  ⟨by decide,
    (c5_invalid_utf8_error_response pipelineStub [0xFF] ⟨0, some 1⟩ (by decide)).1⟩

/-- Claim C6: a dictionary-kind argument outside the compiled-in supported
set and different from `local` makes configuration resolution fail with
the `Args` configuration error, `main` exits with that error, and no
socket is ever bound. -/
theorem c6_unsupported_dict_type {Engine Ip : Type} (features : List String)
    (construct : TokenizerConfig → Except LinderaError Engine)
    (parseIp : String → Option Ip) (a : Args)
    (h1 : isSupported features a.dict_type = false)
    (h2 : a.dict_type ≠ "local") :
    resolveConfig features a.dict_type a.dict a.user_dict a.user_dict_type a.mode =
      Except.error (.args (supportedDictMsg features))
  ∧ mainModel features construct parseIp a =
      .exitErr (.args (supportedDictMsg features))
  ∧ socketBound (mainModel features construct parseIp a) = false := by
  have hd := dictTypeStep_unsupported features a.dict_type a.dict
    defaultTokenizerConfig h1 h2
  have hres : resolveConfig features a.dict_type a.dict a.user_dict
      a.user_dict_type a.mode = Except.error (.args (supportedDictMsg features)) := by
    unfold resolveConfig
    rw [hd]
    rfl
  refine ⟨hres, ?_, ?_⟩
  · simp [mainModel, hres]
  · simp [mainModel, hres, socketBound]

/-- Claim C6 witness: in a build with only the `ipadic` feature, the kind
`unidic` is not supported and resolution fails before any socket exists. -/
theorem c6_unsupported_dict_type_witness :
    isSupported ["ipadic"] "unidic" = false
  ∧ ("unidic" : String) ≠ "local"
  ∧ @mainModel Unit Unit ["ipadic"] (fun _ => .ok ()) (fun _ => some ())
      { host := "0.0.0.0", port := 8080, dict_type := "unidic", dict := none,
        user_dict := none, user_dict_type := none, mode := "normal" } =
      .exitErr (.args (supportedDictMsg ["ipadic"])) :=
  ⟨by decide, by decide,
    (c6_unsupported_dict_type ["ipadic"] (fun _ => .ok ()) (fun _ => some ())
      { host := "0.0.0.0", port := 8080, dict_type := "unidic", dict := none,
        user_dict := none, user_dict_type := none, mode := "normal" }
      (by decide) (by decide)).2.1⟩

/-- Claim C7: resolution rejects a present user-dictionary-type outside
`{csv, bin}` and a mode outside `{normal, search, decompose}`; an absent
user-dictionary-type resolves to csv, and an absent mode option is
defaulted by clap to `normal`. -/
theorem c7_validation_and_defaults :
    (∀ (t : String) (cfg : TokenizerConfig), t ≠ "csv" → t ≠ "bin" →
        userDictTypeStep (some t) cfg =
          Except.error (.args ("invalid user dictionary type: " ++ t)))
  ∧ (∀ (m : String) (cfg : TokenizerConfig),
        m ≠ "normal" → m ≠ "search" → m ≠ "decompose" →
        modeStep m cfg = Except.error (.args ("unsupported mode: " ++ m)))
  ∧ (∀ cfg : TokenizerConfig,
        userDictTypeStep none cfg = Except.ok { cfg with user_dict_type := .csv })
  ∧ (∀ r : RawArgs, r.mode = none → (parseArgs r).mode = "normal") := by
  refine ⟨?_, ?_, fun cfg => rfl, ?_⟩
  · intro t cfg h1 h2
    have e1 : (t == "csv") = false := by simp [h1]
    have e2 : (t == "bin") = false := by simp [h2]
    simp only [userDictTypeStep]
    rw [e1, e2]
    rfl
  · intro m cfg h1 h2 h3
    have e1 : (m == "normal") = false := by simp [h1]
    have e2 : (m == "search") = false := by simp [h2]
    have e3 : (m == "decompose") = false := by simp [h3]
    unfold modeStep
    rw [e1, e2, e3]
    rfl
  · intro r h
    simp [parseArgs, h]

/-- Claim C7 witness at concrete inputs: user dictionary type `xml` and
mode `fast` are rejected; absent options default to csv and normal. -/
theorem c7_validation_and_defaults_witness :
    userDictTypeStep (some "xml") defaultTokenizerConfig =
      Except.error (.args ("invalid user dictionary type: " ++ "xml"))
  ∧ modeStep "fast" defaultTokenizerConfig =
      Except.error (.args ("unsupported mode: " ++ "fast"))
  ∧ userDictTypeStep none defaultTokenizerConfig =
      Except.ok { defaultTokenizerConfig with user_dict_type := .csv }
  ∧ (parseArgs { host := none, port := none, dict_type := none, dict := none,
                 user_dict := none, user_dict_type := none, mode := none }).mode =
      "normal" :=
  ⟨c7_validation_and_defaults.1 "xml" defaultTokenizerConfig (by decide) (by decide),
    c7_validation_and_defaults.2.1 "fast" defaultTokenizerConfig
      (by decide) (by decide) (by decide),
    c7_validation_and_defaults.2.2.1 defaultTokenizerConfig,
    c7_validation_and_defaults.2.2.2
      { host := none, port := none, dict_type := none, dict := none,
        user_dict := none, user_dict_type := none, mode := none } rfl⟩

/-- Claim C8: a configuration-resolution failure or an
engine-construction failure makes `main` return that error — a non-zero
process exit that prints the error as diagnostic — and in either case
the listening socket is never bound. -/
theorem c8_startup_failure_fatal {Engine Ip : Type} (features : List String)
    (construct : TokenizerConfig → Except LinderaError Engine)
    (parseIp : String → Option Ip) (a : Args) :
    (∀ e : LinderaError,
        resolveConfig features a.dict_type a.dict a.user_dict a.user_dict_type a.mode =
          Except.error e →
        mainModel features construct parseIp a = .exitErr e ∧
          socketBound (mainModel features construct parseIp a) = false)
  ∧ (∀ (cfg : TokenizerConfig) (e : LinderaError),
        resolveConfig features a.dict_type a.dict a.user_dict a.user_dict_type a.mode =
          Except.ok cfg →
        construct cfg = Except.error e →
        mainModel features construct parseIp a = .exitErr e ∧
          socketBound (mainModel features construct parseIp a) = false) := by
  constructor
  · intro e h
    constructor
    · simp [mainModel, h]
    · simp [mainModel, h, socketBound]
  · intro cfg e h1 h2
    constructor
    · simp [mainModel, h1, h2]
    · simp [mainModel, h1, h2, socketBound]

/-- Claim C8 witness: a failing engine construction on an otherwise valid
configuration exits with the construction error and binds no socket. -/
theorem c8_startup_failure_fatal_witness :
    resolveConfig ["ipadic"] "ipadic" none none none "normal" =
      Except.ok defaultTokenizerConfig
  ∧ @mainModel Unit Unit ["ipadic"]
      (fun _ => Except.error (.other "dictionary not readable"))
      (fun _ => some ())
      { host := "0.0.0.0", port := 8080, dict_type := "ipadic", dict := none,
        user_dict := none, user_dict_type := none, mode := "normal" } =
      .exitErr (.other "dictionary not readable") :=
  ⟨rfl,
    ((c8_startup_failure_fatal ["ipadic"]
        (fun _ => Except.error (.other "dictionary not readable"))
        (fun _ => (some () : Option Unit))
        { host := "0.0.0.0", port := 8080, dict_type := "ipadic", dict := none,
          user_dict := none, user_dict_type := none, mode := "normal" }).2
      defaultTokenizerConfig (.other "dictionary not readable") rfl rfl).1⟩

/-- Claim C10: when configuration resolution and engine construction both
succeed but the host string is not a parseable IP address, `main` panics
at the `unwrap` on `IpAddr::from_str` — not the configuration-error exit
path — and the panic happens before any socket is bound. -/
theorem c10_bad_host_panics {Engine Ip : Type} (features : List String)
    (construct : TokenizerConfig → Except LinderaError Engine)
    (parseIp : String → Option Ip) (a : Args) (cfg : TokenizerConfig) (eng : Engine)
    (h1 : resolveConfig features a.dict_type a.dict a.user_dict a.user_dict_type a.mode =
      Except.ok cfg)
    (h2 : construct cfg = Except.ok eng)
    (h3 : parseIp a.host = none) :
    mainModel features construct parseIp a = MainOutcome.panicked
  ∧ (∀ e : LinderaError, mainModel features construct parseIp a ≠ .exitErr e)
  ∧ socketBound (mainModel features construct parseIp a) = false := by
  have hm : mainModel features construct parseIp a = MainOutcome.panicked := by
    simp [mainModel, h1, h2, h3]
  refine ⟨hm, ?_, ?_⟩
  · intro e
    rw [hm]
    simp
  · rw [hm]
    rfl

/-- Claim C10 witness: host `nonsense` with an always-failing IP parser
panics after successful resolution and construction. -/
theorem c10_bad_host_panics_witness :
    resolveConfig ["ipadic"] "ipadic" none none none "normal" =
      Except.ok defaultTokenizerConfig
  ∧ @mainModel Unit Unit ["ipadic"] (fun _ => .ok ()) (fun _ => none)
      { host := "nonsense", port := 8080, dict_type := "ipadic", dict := none,
        user_dict := none, user_dict_type := none, mode := "normal" } =
      MainOutcome.panicked :=
  ⟨rfl,
    (c10_bad_host_panics ["ipadic"] (fun _ => (Except.ok () : Except LinderaError Unit))
      (fun _ => (none : Option Unit))
      { host := "nonsense", port := 8080, dict_type := "ipadic", dict := none,
        user_dict := none, user_dict_type := none, mode := "normal" }
      defaultTokenizerConfig () rfl rfl rfl).1⟩

/-- Claim C1: under the engine contract that the native JSON formatter's
successful output is a parseable JSON document (spec section 4.2), the
handler returns a well-formed JSON response for every request body:
UTF-8, tokenization and formatting failures all degrade to the error
payload and the final parse `unwrap` at `main.rs` line 210 never fires,
so no request terminates the process. -/
theorem c1_handler_always_responds (p : Pipeline)
    (hcontract : ∀ (ts : List Token) (s : String),
      p.formatFn ts = Except.ok s → (p.parseFn s).isSome = true)
    (bytes : List Nat) :
    (handlerCore p bytes).isSome = true := by
  unfold handlerCore
  cases utf8Validate bytes with
  | some e => rfl
  | none =>
    show (handlerAfterDecode p bytes).isSome = true
    unfold handlerAfterDecode
    cases ht : p.tokenizeFn bytes with
    | error msg => rfl
    | ok tokens =>
      show (handlerAfterTokenize p tokens).isSome = true
      unfold handlerAfterTokenize
      cases hf : p.formatFn tokens with
      | error msg => rfl
      | ok out =>
        have hp := hcontract tokens out hf
        show (match p.parseFn out with
              | some v => some v
              | none => none).isSome = true
        cases ho : p.parseFn out with
        | some v => rfl
        | none =>
          rw [ho] at hp
          exact absurd hp (by simp)

/-- Claim C1 witness: the stub pipeline satisfies the formatter contract
and the handler answers a concrete request. -/
theorem c1_handler_always_responds_witness :
    (∀ (ts : List Token) (s : String),
        pipelineStub.formatFn ts = Except.ok s →
          (pipelineStub.parseFn s).isSome = true)
  ∧ (handlerCore pipelineStub [0x61]).isSome = true :=
  ⟨fun ts s h => by cases Except.ok.inj h; rfl,
    c1_handler_always_responds pipelineStub
      (fun ts s h => by cases Except.ok.inj h; rfl) [0x61]⟩
